import Mathlib

/-!
Shallow embedding of the `/query` responder of `backend/main.py` (a rule-based
financial query responder), together with theorems about its behaviour.

The responder receives a phone identifier and a free-text message, lower-cases
the message, looks up the caller's financial record (missing identifiers give an
empty record), and walks a fixed chain of keyword rules, answering from the
first rule whose trigger substring occurs in the message; when no rule matches
it echoes the (lower-cased) message with a formatted server timestamp.
-/

namespace Finzi

/-- ASCII model of Python `str.lower` on one character. -/
def lowerChar (c : Char) : Char :=
  if 'A' ≤ c ∧ c ≤ 'Z' then Char.ofNat (c.toNat + 32) else c

/-- ASCII model of Python `str.lower`. -/
def lowerStr (s : String) : String :=
  String.mk (s.data.map lowerChar)

/-- `startsWithL pat l` : does `l` start with `pat`? -/
def startsWithL : List Char → List Char → Bool
  | [], _ => true
  | _ :: _, [] => false
  | a :: as, b :: bs => a == b && startsWithL as bs

/-- Contiguous-substring test, the semantics of Python's `pat in s`. -/
def containsL (pat : List Char) : List Char → Bool
  | [] => startsWithL pat []
  | c :: rest => startsWithL pat (c :: rest) || containsL pat rest

/-- Python `pat in s` on strings. -/
def containsStr (s pat : String) : Bool :=
  containsL pat.data s.data

/-- Python `any(word in message for word in ws)`. -/
def matchesAny (msg : String) (ws : List String) : Bool :=
  ws.any (fun w => containsStr msg w)

/-- One user's financial snapshot: the five optional integer fields of an entry
of `finance.json`.  A `none` field models an absent JSON key. -/
structure FinancialRecord where
  bank_balance : Option Int
  mutual_funds : Option Int
  stocks : Option Int
  loan : Option Int
  credit_score : Option Int
deriving DecidableEq

/-- The record of an unknown identifier: `finances.get(phone, {})`. -/
def emptyRecord : FinancialRecord := ⟨none, none, none, none, none⟩

/-- A wall-clock instant, as consumed by `datetime.now().strftime(...)`. -/
structure DateTime where
  year : Nat
  month : Nat
  day : Nat
  hour : Nat
  minute : Nat
  second : Nat
deriving DecidableEq

/-- Zero-pad to two digits, as `%m`, `%d`, `%H`, `%M`, `%S` do. -/
def pad2 (n : Nat) : String :=
  if n < 10 then "0" ++ Nat.repr n else Nat.repr n

/-- Zero-pad to four digits, as `%Y` does. -/
def pad4 (n : Nat) : String :=
  if n < 10 then "000" ++ Nat.repr n
  else if n < 100 then "00" ++ Nat.repr n
  else if n < 1000 then "0" ++ Nat.repr n
  else Nat.repr n

/-- `strftime('%Y-%m-%d %H:%M:%S')`. -/
def fmtTime (t : DateTime) : String :=
  pad4 t.year ++ "-" ++ pad2 t.month ++ "-" ++ pad2 t.day ++ " " ++
    pad2 t.hour ++ ":" ++ pad2 t.minute ++ ":" ++ pad2 t.second

/-- Insert `,` after every third character of a reversed digit list. -/
def packRev : List Char → List Char
  | a :: b :: c :: d :: rest => a :: b :: c :: ',' :: packRev (d :: rest)
  | l => l

/-- Thousands-grouping of a natural number's decimal digits. -/
def natComma (n : Nat) : String :=
  String.mk ((packRev (Nat.repr n).data.reverse).reverse)

/-- Python's `f"{v:,}"` on an integer: sign, then grouped digits. -/
def commaFmt (v : Int) : String :=
  (if v < 0 then "-" else "") ++ natComma v.natAbs

/-- Python's plain `f"{v}"` on an integer. -/
def intPlain (v : Int) : String :=
  (if v < 0 then "-" else "") ++ Nat.repr v.natAbs

/-! Trigger lists, verbatim from the `any(word in message for word in [...])`
conditions of `/query`. -/

def bankTriggers : List String := ["balance", "bank", "savings"]

def mutualTriggers : List String := ["mutual", "mf", "fund"]

def stockTriggers : List String := ["stock", "equity", "shares"]

def loanTriggers : List String := ["loan", "debt", "liability", "liabilities"]

def creditTriggers : List String := ["credit", "cibil", "score"]

def worthTriggers : List String := ["net worth", "total worth", "networth", "worth"]

/-- Reply of the bank-balance branch. -/
def bankReply (fin : FinancialRecord) : String :=
  match fin.bank_balance with
  | none => "I don\x27t have your bank balance information."
  | some bal => "Your bank balance is ₹" ++ commaFmt bal ++ "."

/-- Reply of the mutual-funds branch. -/
def mutualReply (fin : FinancialRecord) : String :=
  match fin.mutual_funds with
  | none => "I don\x27t have mutual funds information for you."
  | some mf => "Your mutual funds are worth ₹" ++ commaFmt mf ++ "."

/-- Reply of the stocks branch. -/
def stocksReply (fin : FinancialRecord) : String :=
  match fin.stocks with
  | none => "I don\x27t have stock holdings information for you."
  | some s => "Your stock holdings are worth ₹" ++ commaFmt s ++ "."

/-- Reply of the loan branch (note the explicit zero case). -/
def loanReply (fin : FinancialRecord) : String :=
  match fin.loan with
  | none => "I don\x27t have loan / liability details for you."
  | some loan =>
    if loan == 0 then "You have no active loans or liabilities."
    else "Your current loan is ₹" ++ commaFmt loan ++ "."

/-- Reply of the credit-score branch (plain integer, no currency symbol). -/
def creditReply (fin : FinancialRecord) : String :=
  match fin.credit_score with
  | none => "Your credit score is not available."
  | some cs => "Your credit score is " ++ intPlain cs ++ "."

/-- Reply of the net-worth branch: zero-default aggregation. -/
def netWorthReply (fin : FinancialRecord) : String :=
  let bank := fin.bank_balance.getD 0
  let mf := fin.mutual_funds.getD 0
  let stocks := fin.stocks.getD 0
  let loan := fin.loan.getD 0
  let total_assets := bank + mf + stocks
  let total_net_worth := total_assets - loan
  if total_net_worth < 0 then
    "Your liabilities exceed your assets by ₹" ++ commaFmt |total_net_worth| ++ "."
  else
    "Your total net worth is ₹" ++ commaFmt total_net_worth ++ "."

/-- Reply to an empty message. -/
def promptReply : String := "I didn\x27t get that. Please send a message."

/-- Fallback reply: echo of the (already lower-cased) message plus server time. -/
def fallbackReply (msg : String) (now : DateTime) : String :=
  "I am still Learning, I don\x27t have information about it. \"" ++ msg ++
    "\" — (server time: " ++ fmtTime now ++ ")"

/-- The rule chain of `/query`, applied to the already lower-cased message. -/
def respondCore (msg : String) (fin : FinancialRecord) (now : DateTime) : String :=
  if msg == "" then promptReply
  else if matchesAny msg bankTriggers then bankReply fin
  else if matchesAny msg mutualTriggers then mutualReply fin
  else if matchesAny msg stockTriggers then stocksReply fin
  else if matchesAny msg loanTriggers then loanReply fin
  else if matchesAny msg creditTriggers then creditReply fin
  else if matchesAny msg worthTriggers then netWorthReply fin
  else fallbackReply msg now

/-- The responder: lower-case the message, then run the rule chain. -/
def respond (message : String) (fin : FinancialRecord) (now : DateTime) : String :=
  respondCore (lowerStr message) fin now

/-- `finances.get(phone, {})`: keyed lookup in the finance store, empty record
when the identifier is absent. -/
def get_financial_record (store : List (String × FinancialRecord))
    (phone : String) : FinancialRecord :=
  match store.find? (fun e => e.fst == phone) with
  | some e => e.snd
  | none => emptyRecord

/-- Python `c.isspace()` for the ASCII whitespace characters. -/
def isSpaceChar (c : Char) : Bool :=
  c == ' ' || c == '\t' || c == '\n' || c == '\r' || c == '\x0b' || c == '\x0c'

/-- Drop leading whitespace characters. -/
def dropSpaces : List Char → List Char
  | [] => []
  | c :: r => if isSpaceChar c then dropSpaces r else c :: r

/-- Model of Python `str.strip()` (ASCII whitespace). -/
def stripStr (s : String) : String :=
  String.mk ((dropSpaces (dropSpaces s.data).reverse).reverse)

/-- The full `/query` operation: strip the phone, look up the record, respond. -/
def query (store : List (String × FinancialRecord)) (phone message : String)
    (now : DateTime) : String :=
  respond message (get_financial_record store (stripStr phone)) now

/-- The rule table of the spec: trigger list and reply function of each rule,
in the priority order of the source's conditional chain. -/
def rules : List (List String × (FinancialRecord → String)) :=
  [(bankTriggers, bankReply), (mutualTriggers, mutualReply),
   (stockTriggers, stocksReply), (loanTriggers, loanReply),
   (creditTriggers, creditReply), (worthTriggers, netWorthReply)]

/-- Index of the first rule of `rs` matching `msg`. -/
def firstMatchIdxAux (msg : String) :
    List (List String × (FinancialRecord → String)) → Option Nat
  | [] => none
  | r :: rest =>
    if matchesAny msg r.fst then some 0
    else (firstMatchIdxAux msg rest).map Nat.succ

/-- Index of the first rule of the table matching `msg`. -/
def firstMatchIdx (msg : String) : Option Nat :=
  firstMatchIdxAux msg rules

/-- The demo record shipped in the starter `finance.json`. -/
def demoRecord : FinancialRecord :=
  ⟨some 850000, some 600000, some 400000, some 300000, some 820⟩

/-- The starter finance store. -/
def demoStore : List (String × FinancialRecord) := [("9823533097", demoRecord)]

/-- A fixed sample instant used for concrete evaluations. -/
def sampleTime : DateTime := ⟨2024, 1, 1, 0, 0, 0⟩

/-- A record whose only present field is a zero loan. -/
def recLoanZero : FinancialRecord := ⟨none, none, none, some 0, none⟩

/-- A record whose only present field is a zero bank balance. -/
def recBankZero : FinancialRecord := ⟨some 0, none, none, none, none⟩

/-! ### Helper lemmas -/

lemma beq_empty_false_of_matches {m : String} {ts : List String}
    (h : matchesAny m ts = true) (h0 : matchesAny "" ts = false) :
    (m == "") = false := by
  cases hb : (m == "") with
  | false => rfl
  | true =>
    have hm : m = "" := eq_of_beq hb
    rw [hm, h0] at h
    simp at h

lemma firstMatchIdx_unfold (m : String) :
    firstMatchIdx m =
      if matchesAny m bankTriggers then some 0
      else if matchesAny m mutualTriggers then some 1
      else if matchesAny m stockTriggers then some 2
      else if matchesAny m loanTriggers then some 3
      else if matchesAny m creditTriggers then some 4
      else if matchesAny m worthTriggers then some 5
      else none := by
  simp only [firstMatchIdx, rules, firstMatchIdxAux]
  split_ifs <;> rfl

lemma idx0_elim {m : String} (h : firstMatchIdx m = some 0) :
    matchesAny m bankTriggers = true := by
  rw [firstMatchIdx_unfold] at h
  split_ifs at h <;> simp_all

lemma idx1_elim {m : String} (h : firstMatchIdx m = some 1) :
    matchesAny m bankTriggers = false ∧ matchesAny m mutualTriggers = true := by
  rw [firstMatchIdx_unfold] at h
  split_ifs at h <;> simp_all

lemma idx2_elim {m : String} (h : firstMatchIdx m = some 2) :
    matchesAny m bankTriggers = false ∧ matchesAny m mutualTriggers = false ∧
      matchesAny m stockTriggers = true := by
  rw [firstMatchIdx_unfold] at h
  split_ifs at h <;> simp_all

lemma idx3_elim {m : String} (h : firstMatchIdx m = some 3) :
    matchesAny m bankTriggers = false ∧ matchesAny m mutualTriggers = false ∧
      matchesAny m stockTriggers = false ∧ matchesAny m loanTriggers = true := by
  rw [firstMatchIdx_unfold] at h
  split_ifs at h <;> simp_all

lemma idx4_elim {m : String} (h : firstMatchIdx m = some 4) :
    matchesAny m bankTriggers = false ∧ matchesAny m mutualTriggers = false ∧
      matchesAny m stockTriggers = false ∧ matchesAny m loanTriggers = false ∧
      matchesAny m creditTriggers = true := by
  rw [firstMatchIdx_unfold] at h
  split_ifs at h <;> simp_all

lemma idx5_elim {m : String} (h : firstMatchIdx m = some 5) :
    matchesAny m bankTriggers = false ∧ matchesAny m mutualTriggers = false ∧
      matchesAny m stockTriggers = false ∧ matchesAny m loanTriggers = false ∧
      matchesAny m creditTriggers = false ∧ matchesAny m worthTriggers = true := by
  rw [firstMatchIdx_unfold] at h
  split_ifs at h <;> simp_all

lemma none_elim {m : String} (h : firstMatchIdx m = none) :
    matchesAny m bankTriggers = false ∧ matchesAny m mutualTriggers = false ∧
      matchesAny m stockTriggers = false ∧ matchesAny m loanTriggers = false ∧
      matchesAny m creditTriggers = false ∧ matchesAny m worthTriggers = false := by
  rw [firstMatchIdx_unfold] at h
  split_ifs at h
  simp_all

lemma respond_eq_idx0 {message : String} {fin : FinancialRecord} {now : DateTime}
    (h : firstMatchIdx (lowerStr message) = some 0) :
    respond message fin now = bankReply fin := by
  have hb := idx0_elim h
  have hne : (lowerStr message == "") = false :=
    beq_empty_false_of_matches hb (by decide)
  simp [respond, respondCore, hne, hb]

lemma respond_eq_idx1 {message : String} {fin : FinancialRecord} {now : DateTime}
    (h : firstMatchIdx (lowerStr message) = some 1) :
    respond message fin now = mutualReply fin := by
  obtain ⟨h0, h1⟩ := idx1_elim h
  have hne : (lowerStr message == "") = false :=
    beq_empty_false_of_matches h1 (by decide)
  simp [respond, respondCore, hne, h0, h1]

lemma respond_eq_idx2 {message : String} {fin : FinancialRecord} {now : DateTime}
    (h : firstMatchIdx (lowerStr message) = some 2) :
    respond message fin now = stocksReply fin := by
  obtain ⟨h0, h1, h2⟩ := idx2_elim h
  have hne : (lowerStr message == "") = false :=
    beq_empty_false_of_matches h2 (by decide)
  simp [respond, respondCore, hne, h0, h1, h2]

lemma respond_eq_idx3 {message : String} {fin : FinancialRecord} {now : DateTime}
    (h : firstMatchIdx (lowerStr message) = some 3) :
    respond message fin now = loanReply fin := by
  obtain ⟨h0, h1, h2, h3⟩ := idx3_elim h
  have hne : (lowerStr message == "") = false :=
    beq_empty_false_of_matches h3 (by decide)
  simp [respond, respondCore, hne, h0, h1, h2, h3]

lemma respond_eq_idx4 {message : String} {fin : FinancialRecord} {now : DateTime}
    (h : firstMatchIdx (lowerStr message) = some 4) :
    respond message fin now = creditReply fin := by
  obtain ⟨h0, h1, h2, h3, h4⟩ := idx4_elim h
  have hne : (lowerStr message == "") = false :=
    beq_empty_false_of_matches h4 (by decide)
  simp [respond, respondCore, hne, h0, h1, h2, h3, h4]

lemma respond_eq_idx5 {message : String} {fin : FinancialRecord} {now : DateTime}
    (h : firstMatchIdx (lowerStr message) = some 5) :
    respond message fin now = netWorthReply fin := by
  obtain ⟨h0, h1, h2, h3, h4, h5⟩ := idx5_elim h
  have hne : (lowerStr message == "") = false :=
    beq_empty_false_of_matches h5 (by decide)
  simp [respond, respondCore, hne, h0, h1, h2, h3, h4, h5]

lemma append_ne_empty_left (s t : String) (h : s ≠ "") : s ++ t ≠ "" := by
  intro he
  apply h
  have hd : s.data ++ t.data = [] := by
    have h2 := congrArg String.data he
    simpa [String.data_append] using h2
  have hs : s.data = [] := (List.append_eq_nil.mp hd).1
  cases s with
  | mk l =>
    have hl : l = [] := hs
    rw [hl]

lemma templated_ne_empty (p x q : String) (hp : p ≠ "") : p ++ x ++ q ≠ "" :=
  append_ne_empty_left (p ++ x) q (append_ne_empty_left p x hp)

lemma bankReply_ne_empty (fin : FinancialRecord) : bankReply fin ≠ "" := by
  unfold bankReply
  cases fin.bank_balance with
  | none => decide
  | some bal =>
    apply templated_ne_empty
    decide

lemma mutualReply_ne_empty (fin : FinancialRecord) : mutualReply fin ≠ "" := by
  unfold mutualReply
  cases fin.mutual_funds with
  | none => decide
  | some mf =>
    apply templated_ne_empty
    decide

lemma stocksReply_ne_empty (fin : FinancialRecord) : stocksReply fin ≠ "" := by
  unfold stocksReply
  cases fin.stocks with
  | none => decide
  | some s =>
    apply templated_ne_empty
    decide

lemma loanReply_ne_empty (fin : FinancialRecord) : loanReply fin ≠ "" := by
  unfold loanReply
  split
  · decide
  · split
    · decide
    · apply templated_ne_empty
      decide

lemma creditReply_ne_empty (fin : FinancialRecord) : creditReply fin ≠ "" := by
  unfold creditReply
  cases fin.credit_score with
  | none => decide
  | some cs =>
    apply templated_ne_empty
    decide

lemma netWorthReply_ne_empty (fin : FinancialRecord) : netWorthReply fin ≠ "" := by
  simp only [netWorthReply]
  split
  · apply templated_ne_empty
    decide
  · apply templated_ne_empty
    decide

lemma fallbackReply_ne_empty (msg : String) (now : DateTime) :
    fallbackReply msg now ≠ "" := by
  unfold fallbackReply
  exact append_ne_empty_left _ _ (append_ne_empty_left _ _
    (append_ne_empty_left _ _ (append_ne_empty_left _ _ (by decide))))

lemma respondCore_ne_empty (m : String) (fin : FinancialRecord) (now : DateTime) :
    respondCore m fin now ≠ "" := by
  unfold respondCore
  repeat' split
  all_goals first
    | decide
    | exact bankReply_ne_empty fin
    | exact mutualReply_ne_empty fin
    | exact stocksReply_ne_empty fin
    | exact loanReply_ne_empty fin
    | exact creditReply_ne_empty fin
    | exact netWorthReply_ne_empty fin
    | exact fallbackReply_ne_empty _ _

lemma head?_append_of_head? {l1 l2 : List Char} {a : Char}
    (h : l1.head? = some a) : (l1 ++ l2).head? = some a := by
  cases l1 with
  | nil => simp at h
  | cons x xs => simpa using h

lemma str_ne_of_head (a b : Char) {s t : String}
    (hs : s.data.head? = some a) (ht : t.data.head? = some b) (hab : a ≠ b) :
    s ≠ t := by
  intro he
  rw [he, ht] at hs
  exact hab (Option.some.inj hs).symm

lemma lowerStr_ne_empty {m : String} (h : m ≠ "") : lowerStr m ≠ "" := by
  intro he
  apply h
  have h2 : List.map lowerChar m.data = ([] : List Char) := congrArg String.data he
  have h3 : m.data = [] := by
    cases hm : m.data with
    | nil => rfl
    | cons a as => rw [hm] at h2; simp at h2
  cases m with
  | mk l =>
    have hl : l = [] := h3
    rw [hl]

/-! ### Claim theorems -/

/-- Claim C1: for every finance store, phone identifier, message and instant,
the `query` operation returns exactly one reply string, never empty and never
an error: missing records and fields fold into ordinary replies. -/
theorem claim_C1_query_never_empty (store : List (String × FinancialRecord))
    (phone message : String) (now : DateTime) :
    query store phone message now ≠ "" :=
  respondCore_ne_empty (lowerStr message) (get_financial_record store (stripStr phone)) now

/-- Claim C2 (amended): topic rules are evaluated in the fixed table order with
the first matching rule winning; a message containing both "loan" and "credit"
whose lower-cased form matches no earlier (bank / mutual-fund / stock) rule
yields the loan reply, and such a message never selects the credit-score rule. -/
theorem claim_C2_priority_order (message : String) (fin : FinancialRecord)
    (now : DateTime) :
    (∀ i, firstMatchIdx (lowerStr message) = some i →
      some (respond message fin now) = (rules[i]?).map (fun p => p.snd fin))
    ∧ (containsStr (lowerStr message) "loan" = true →
        containsStr (lowerStr message) "credit" = true →
        firstMatchIdx (lowerStr message) ≠ some 4
        ∧ (matchesAny (lowerStr message) bankTriggers = false →
            matchesAny (lowerStr message) mutualTriggers = false →
            matchesAny (lowerStr message) stockTriggers = false →
            respond message fin now = loanReply fin)) := by
  constructor
  · intro i h
    have h2 := h
    rw [firstMatchIdx_unfold] at h2
    split_ifs at h2 with h0 h1 ha2 h3 h4 h5
    · obtain rfl : i = 0 := (Option.some.inj h2).symm
      simp [rules, respond_eq_idx0 h]
    · obtain rfl : i = 1 := (Option.some.inj h2).symm
      simp [rules, respond_eq_idx1 h]
    · obtain rfl : i = 2 := (Option.some.inj h2).symm
      simp [rules, respond_eq_idx2 h]
    · obtain rfl : i = 3 := (Option.some.inj h2).symm
      simp [rules, respond_eq_idx3 h]
    · obtain rfl : i = 4 := (Option.some.inj h2).symm
      simp [rules, respond_eq_idx4 h]
    · obtain rfl : i = 5 := (Option.some.inj h2).symm
      simp [rules, respond_eq_idx5 h]
  · intro hl hc
    have hloan : matchesAny (lowerStr message) loanTriggers = true := by
      simp [matchesAny, loanTriggers, hl]
    constructor
    · intro h4eq
      obtain ⟨_, _, _, b3, _⟩ := idx4_elim h4eq
      rw [hloan] at b3
      exact absurd b3 (by decide)
    · intro b0 b1 b2
      have hidx : firstMatchIdx (lowerStr message) = some 3 := by
        rw [firstMatchIdx_unfold]
        simp [b0, b1, b2, hloan]
      exact respond_eq_idx3 hidx

/-- Claim C2 counterexample: "balance loan credit" contains both "loan" and
"credit" but receives the bank-balance reply, not the loan reply, because the
bank rule matches first. -/
theorem claim_C2_counterexample :
    containsStr (lowerStr "balance loan credit") "loan" = true
    ∧ containsStr (lowerStr "balance loan credit") "credit" = true
    ∧ respond "balance loan credit" demoRecord sampleTime ≠ loanReply demoRecord
    ∧ respond "balance loan credit" demoRecord sampleTime = bankReply demoRecord := by
  refine ⟨by decide, by decide, by decide, by decide⟩

/-- Claim C2 witness: "loan credit" matches no earlier rule, so it gets the
loan reply, the reply of rule 3 of the table. -/
theorem claim_C2_witness :
    some (respond "loan credit" demoRecord sampleTime) =
      (rules[3]?).map (fun p => p.snd demoRecord)
    ∧ respond "loan credit" demoRecord sampleTime = loanReply demoRecord := by
  constructor
  · exact (claim_C2_priority_order "loan credit" demoRecord sampleTime).1 3 (by decide)
  · exact ((claim_C2_priority_order "loan credit" demoRecord sampleTime).2
      (by decide) (by decide)).2 (by decide) (by decide) (by decide)

/-- Claim C3 (amended): for every record and instant the exactly-empty message
yields the prompt reply with no topic rule evaluated, but a whitespace-only
message is not trimmed: it falls through the rule chain to the fallback. -/
theorem claim_C3_empty_message (fin : FinancialRecord) (now : DateTime) :
    respond "" fin now = "I didn\x27t get that. Please send a message."
    ∧ respond " " fin now = fallbackReply " " now :=
  ⟨rfl, rfl⟩

/-- Claim C3 counterexample: a whitespace-only message does not get the
prompt-for-input reply (the code only special-cases the empty string). -/
theorem claim_C3_counterexample :
    respond " " emptyRecord sampleTime ≠
      "I didn\x27t get that. Please send a message." := by
  decide

/-- Claim C4 (amended): a non-empty message matching no rule receives the
fallback reply, which embeds the lower-cased message (not the original
verbatim) in double quotes with the timestamp formatted `YYYY-MM-DD HH:MM:SS`. -/
theorem claim_C4_fallback (message : String) (fin : FinancialRecord)
    (now : DateTime) (hne : message ≠ "")
    (hmi : firstMatchIdx (lowerStr message) = none) :
    respond message fin now =
      "I am still Learning, I don\x27t have information about it. \"" ++
        lowerStr message ++ "\" — (server time: " ++ fmtTime now ++ ")" := by
  obtain ⟨b0, b1, b2, b3, b4, b5⟩ := none_elim hmi
  have hl : (lowerStr message == "") = false := by
    cases hb : (lowerStr message == "") with
    | false => rfl
    | true => exact absurd (eq_of_beq hb) (lowerStr_ne_empty hne)
  simp [respond, respondCore, hl, b0, b1, b2, b3, b4, b5, fallbackReply]

/-- Claim C4 counterexample: the fallback echoes the lower-cased message, so a
mixed-case message is not embedded verbatim. -/
theorem claim_C4_counterexample :
    respond "Hello There" emptyRecord sampleTime =
      "I am still Learning, I don\x27t have information about it. \"hello there\" — (server time: 2024-01-01 00:00:00)"
    ∧ respond "Hello There" emptyRecord sampleTime ≠
      "I am still Learning, I don\x27t have information about it. \"Hello There\" — (server time: 2024-01-01 00:00:00)" := by
  constructor
  · decide
  · decide

/-- Claim C4 witness: "hello there" matches no rule and gets the fallback. -/
theorem claim_C4_witness :
    respond "hello there" emptyRecord sampleTime =
      "I am still Learning, I don\x27t have information about it. \"" ++
        lowerStr "hello there" ++ "\" — (server time: " ++ fmtTime sampleTime ++ ")" :=
  claim_C4_fallback "hello there" emptyRecord sampleTime (by decide) (by decide)

/-- Claim C5: a message matched by the net-worth rule is answered with the
zero-default aggregation bank + mutual funds + stocks − loan, negative totals
reported as liabilities exceeding assets by the absolute value; the demo
record with "what's my net worth" yields "Your total net worth is ₹1,550,000.". -/
theorem claim_C5_net_worth (message : String) (fin : FinancialRecord)
    (now : DateTime) :
    (firstMatchIdx (lowerStr message) = some 5 →
      respond message fin now =
        (if fin.bank_balance.getD 0 + fin.mutual_funds.getD 0 +
              fin.stocks.getD 0 - fin.loan.getD 0 < 0 then
          "Your liabilities exceed your assets by ₹" ++
            commaFmt (-(fin.bank_balance.getD 0 + fin.mutual_funds.getD 0 +
              fin.stocks.getD 0 - fin.loan.getD 0)) ++ "."
        else
          "Your total net worth is ₹" ++
            commaFmt (fin.bank_balance.getD 0 + fin.mutual_funds.getD 0 +
              fin.stocks.getD 0 - fin.loan.getD 0) ++ "."))
    ∧ respond "what\x27s my net worth" demoRecord now =
        "Your total net worth is ₹1,550,000." := by
  constructor
  · intro h
    rw [respond_eq_idx5 h]
    simp only [netWorthReply]
    split_ifs with hlt
    · rw [abs_of_neg hlt]
    · rfl
  · rfl

/-- Claim C5 witness. -/
theorem claim_C5_witness :
    respond "what\x27s my net worth" demoRecord sampleTime =
      (if demoRecord.bank_balance.getD 0 + demoRecord.mutual_funds.getD 0 +
            demoRecord.stocks.getD 0 - demoRecord.loan.getD 0 < 0 then
        "Your liabilities exceed your assets by ₹" ++
          commaFmt (-(demoRecord.bank_balance.getD 0 + demoRecord.mutual_funds.getD 0 +
            demoRecord.stocks.getD 0 - demoRecord.loan.getD 0)) ++ "."
      else
        "Your total net worth is ₹" ++
          commaFmt (demoRecord.bank_balance.getD 0 + demoRecord.mutual_funds.getD 0 +
            demoRecord.stocks.getD 0 - demoRecord.loan.getD 0) ++ ".") :=
  (claim_C5_net_worth "what\x27s my net worth" demoRecord sampleTime).1 (by decide)

/-- Claim C6: in every single-field rule, absence of the field is distinguished
from a present zero: a missing field yields the rule's "unavailable" reply, a
present zero a value-specific reply (loan gets its dedicated zero message, the
other fields render the zero value). -/
theorem claim_C6_absent_vs_zero (message : String) (fin : FinancialRecord)
    (now : DateTime) :
    (firstMatchIdx (lowerStr message) = some 0 →
      (fin.bank_balance = none →
        respond message fin now = "I don\x27t have your bank balance information.")
      ∧ (fin.bank_balance = some 0 →
        respond message fin now = "Your bank balance is ₹0."))
    ∧ (firstMatchIdx (lowerStr message) = some 1 →
      (fin.mutual_funds = none →
        respond message fin now = "I don\x27t have mutual funds information for you.")
      ∧ (fin.mutual_funds = some 0 →
        respond message fin now = "Your mutual funds are worth ₹0."))
    ∧ (firstMatchIdx (lowerStr message) = some 2 →
      (fin.stocks = none →
        respond message fin now = "I don\x27t have stock holdings information for you.")
      ∧ (fin.stocks = some 0 →
        respond message fin now = "Your stock holdings are worth ₹0."))
    ∧ (firstMatchIdx (lowerStr message) = some 3 →
      (fin.loan = none →
        respond message fin now = "I don\x27t have loan / liability details for you.")
      ∧ (fin.loan = some 0 →
        respond message fin now = "You have no active loans or liabilities."))
    ∧ (firstMatchIdx (lowerStr message) = some 4 →
      (fin.credit_score = none →
        respond message fin now = "Your credit score is not available.")
      ∧ (fin.credit_score = some 0 →
        respond message fin now = "Your credit score is 0.")) := by
  refine ⟨?_, ?_, ?_, ?_, ?_⟩
  · intro h
    refine ⟨fun hf => ?_, fun hf => ?_⟩
    · rw [respond_eq_idx0 h]
      unfold bankReply
      rw [hf]
    · rw [respond_eq_idx0 h]
      unfold bankReply
      rw [hf]
      decide
  · intro h
    refine ⟨fun hf => ?_, fun hf => ?_⟩
    · rw [respond_eq_idx1 h]
      unfold mutualReply
      rw [hf]
    · rw [respond_eq_idx1 h]
      unfold mutualReply
      rw [hf]
      decide
  · intro h
    refine ⟨fun hf => ?_, fun hf => ?_⟩
    · rw [respond_eq_idx2 h]
      unfold stocksReply
      rw [hf]
    · rw [respond_eq_idx2 h]
      unfold stocksReply
      rw [hf]
      decide
  · intro h
    refine ⟨fun hf => ?_, fun hf => ?_⟩
    · rw [respond_eq_idx3 h]
      unfold loanReply
      rw [hf]
    · rw [respond_eq_idx3 h]
      unfold loanReply
      rw [hf]
      decide
  · intro h
    refine ⟨fun hf => ?_, fun hf => ?_⟩
    · rw [respond_eq_idx4 h]
      unfold creditReply
      rw [hf]
    · rw [respond_eq_idx4 h]
      unfold creditReply
      rw [hf]
      decide

/-- Claim C6 witness: loan 0 vs loan absent, and a present zero bank balance. -/
theorem claim_C6_witness :
    respond "loan" recLoanZero sampleTime = "You have no active loans or liabilities."
    ∧ respond "loan" emptyRecord sampleTime =
        "I don\x27t have loan / liability details for you."
    ∧ respond "bank" recBankZero sampleTime = "Your bank balance is ₹0." := by
  refine ⟨?_, ?_, ?_⟩
  · exact ((claim_C6_absent_vs_zero "loan" recLoanZero sampleTime).2.2.2.1
      (by decide)).2 rfl
  · exact ((claim_C6_absent_vs_zero "loan" emptyRecord sampleTime).2.2.2.1
      (by decide)).1 rfl
  · exact ((claim_C6_absent_vs_zero "bank" recBankZero sampleTime).1
      (by decide)).2 rfl

/-- Claim C7: looking up an identifier that has no record yields the empty
record (all fields absent) rather than an error, and the single-field rules
then report "unavailable": "check my stocks" gets the stocks-unavailable reply. -/
theorem claim_C7_missing_record (store : List (String × FinancialRecord))
    (phone : String) (now : DateTime)
    (h : store.find? (fun e => e.fst == stripStr phone) = none) :
    get_financial_record store (stripStr phone) = emptyRecord
    ∧ query store phone "check my stocks" now =
        "I don\x27t have stock holdings information for you." := by
  have hrec : get_financial_record store (stripStr phone) = emptyRecord := by
    unfold get_financial_record
    rw [h]
  refine ⟨hrec, ?_⟩
  unfold query
  rw [hrec]
  rfl

/-- Claim C7 witness: the identifier "123" is not in the demo store. -/
theorem claim_C7_witness :
    get_financial_record demoStore (stripStr "123") = emptyRecord
    ∧ query demoStore "123" "check my stocks" sampleTime =
        "I don\x27t have stock holdings information for you." :=
  claim_C7_missing_record demoStore "123" sampleTime (by decide)

/-- Claim C8: the responder is deterministic in (message, record, time): two
calls with the same message and record return the same reply, except that when
both fall into the fallback branch each is the fallback template at its own
timestamp, so the two replies differ only in the embedded timestamp. -/
theorem claim_C8_deterministic (message : String) (fin : FinancialRecord)
    (t1 t2 : DateTime) :
    respond message fin t1 = respond message fin t2
    ∨ (respond message fin t1 = fallbackReply (lowerStr message) t1
        ∧ respond message fin t2 = fallbackReply (lowerStr message) t2) := by
  unfold respond respondCore
  repeat' split
  all_goals first
    | exact Or.inl rfl
    | exact Or.inr ⟨rfl, rfl⟩

/-- Claim C9: present amounts in the bank, mutual-funds, stocks and loan rules
are rendered with a thousands separator after ₹, while the credit score is a
plain integer; 850000 renders as "850,000" grouped, "850000" plain. -/
theorem claim_C9_formatting (message : String) (fin : FinancialRecord)
    (now : DateTime) (v : Int) :
    (firstMatchIdx (lowerStr message) = some 0 → fin.bank_balance = some v →
      respond message fin now = "Your bank balance is ₹" ++ commaFmt v ++ ".")
    ∧ (firstMatchIdx (lowerStr message) = some 1 → fin.mutual_funds = some v →
      respond message fin now = "Your mutual funds are worth ₹" ++ commaFmt v ++ ".")
    ∧ (firstMatchIdx (lowerStr message) = some 2 → fin.stocks = some v →
      respond message fin now = "Your stock holdings are worth ₹" ++ commaFmt v ++ ".")
    ∧ (firstMatchIdx (lowerStr message) = some 3 → fin.loan = some v → v ≠ 0 →
      respond message fin now = "Your current loan is ₹" ++ commaFmt v ++ ".")
    ∧ (firstMatchIdx (lowerStr message) = some 4 → fin.credit_score = some v →
      respond message fin now = "Your credit score is " ++ intPlain v ++ ".")
    ∧ commaFmt 850000 = "850,000"
    ∧ intPlain 850000 = "850000" := by
  refine ⟨?_, ?_, ?_, ?_, ?_, by decide, by decide⟩
  · intro h hf
    rw [respond_eq_idx0 h]
    unfold bankReply
    rw [hf]
  · intro h hf
    rw [respond_eq_idx1 h]
    unfold mutualReply
    rw [hf]
  · intro h hf
    rw [respond_eq_idx2 h]
    unfold stocksReply
    rw [hf]
  · intro h hf hv
    rw [respond_eq_idx3 h]
    unfold loanReply
    rw [hf]
    have hb : (v == 0) = false := beq_eq_false_iff_ne.mpr hv
    simp [hb]
  · intro h hf
    rw [respond_eq_idx4 h]
    unfold creditReply
    rw [hf]

/-- Claim C9 witness. -/
theorem claim_C9_witness :
    respond "balance" demoRecord sampleTime =
      "Your bank balance is ₹" ++ commaFmt 850000 ++ "."
    ∧ respond "score" demoRecord sampleTime =
      "Your credit score is " ++ intPlain 820 ++ "."
    ∧ commaFmt 850000 = "850,000" := by
  refine ⟨?_, ?_, ?_⟩
  · exact (claim_C9_formatting "balance" demoRecord sampleTime 850000).1
      (by decide) rfl
  · exact (claim_C9_formatting "score" demoRecord sampleTime 820).2.2.2.2.1
      (by decide) rfl
  · exact (claim_C9_formatting "x" demoRecord sampleTime 0).2.2.2.2.2.1

/-- Claim C10: trigger matching is raw substring containment on the lower-cased
message with no word-boundary check: "I am comfortable" contains "mf", so with
mutual funds present it receives the mutual-funds reply, not the fallback. -/
theorem claim_C10_substring_matching (fin : FinancialRecord) (now : DateTime)
    (v : Int) (h : fin.mutual_funds = some v) :
    respond "I am comfortable" fin now =
      "Your mutual funds are worth ₹" ++ commaFmt v ++ "."
    ∧ respond "I am comfortable" fin now ≠
        fallbackReply (lowerStr "I am comfortable") now := by
  have h1 : respond "I am comfortable" fin now =
      "Your mutual funds are worth ₹" ++ commaFmt v ++ "." := by
    rw [respond_eq_idx1 (by decide)]
    unfold mutualReply
    rw [h]
  refine ⟨h1, ?_⟩
  rw [h1]
  have hs : ("Your mutual funds are worth ₹" ++ commaFmt v ++ ".").data.head? =
      some 'Y' := by
    rw [String.data_append, String.data_append]
    exact head?_append_of_head? (head?_append_of_head? (by decide))
  have ht : (fallbackReply (lowerStr "I am comfortable") now).data.head? =
      some 'I' := by
    unfold fallbackReply
    rw [String.data_append, String.data_append, String.data_append,
      String.data_append]
    exact head?_append_of_head? (head?_append_of_head?
      (head?_append_of_head? (head?_append_of_head? (by decide))))
  exact str_ne_of_head 'Y' 'I' hs ht (by decide)

/-- Claim C10 witness. -/
theorem claim_C10_witness :
    respond "I am comfortable" demoRecord sampleTime =
      "Your mutual funds are worth ₹" ++ commaFmt 600000 ++ "."
    ∧ respond "I am comfortable" demoRecord sampleTime ≠
        fallbackReply (lowerStr "I am comfortable") sampleTime :=
  claim_C10_substring_matching demoRecord sampleTime 600000 rfl

end Finzi
